import Mathlib

/-!
# RPQ-bench: a shallow embedding of `src/main.c`

The development follows the three functions of `main.c` that carry the
behaviour of the benchmark: `load_adjacency_matrix` (the lazy per-label graph
cache `GS`), `load_query` (parsing and classifying one `meta.txt`) and `bench`
(the trial loop).

Modelling conventions.

* A text file read with `fscanf(f, "%ld", ...)` is the list of the integers it
  holds; a read at the end of the list is a failed `fscanf`, which assigns
  nothing.  An integer that a `long` does not hold is stored as the nearest of
  `LONG_MIN` and `LONG_MAX` (`scan_long`: the conversion of glibc; ISO C leaves
  the result undefined), and the theorems about values read assume integers
  that a `long` holds.
* `int64_t` values are `Int` wrapped into `[-2^63, 2^63)`, `size_t`/`uint64_t`
  values are `Nat` below `2^64`; arithmetic on them wraps.  The trial counter
  `run` of `bench` is an `int` compared with the `uint64_t` bound `runs`: its
  increment at `INT_MAX` ends the run with the outcome `undefined` (with a
  wrapping counter the loop would not end for `runs ≥ 2^64 - 2^31`).
* A C array is a map from the index to the cell.  The arrays of `struct query`
  and the local `G` of `bench` have `MAX_LABELS = 16` cells, `GS` has
  `config->label_count + 1` cells; an access outside these bounds ends the run
  with the outcome `undefined`.
* `xmalloc` returns uninitialised memory: `load_query` receives the initial
  content of the block as the argument `q0`, and the content of the stack slot
  of its uninitialised local `label` as the argument `label0`.
* `exit(-1)` (the macros `OK` and `FATAL`) and a failed `assert` end the run
  with the outcome `exit`.  Assertions are enabled (`main.c` includes
  `assert.h` and does not define `NDEBUG`).
* The external world is read through `Env`: which dataset files exist, what the
  solver answers, whether the result files can be opened.  The clock is not
  modelled: a result line is kept without its elapsed-time field.
* The ghost fields `resolved`, `opened` and `calls` of `World` record the calls
  of `load_adjacency_matrix`, the dataset files it opened, and the calls of
  `LAGraph_2RegularPathQuery`.
-/

namespace RPQBench

/-! ## Constants -/

/-- Bound `MAX_LABELS` of `main.c`. -/
def MAX_LABELS : Nat := 16

/-- Bound `QUERY_MAX_STARTING_STATES` of `main.c`. -/
def QUERY_MAX_STARTING_STATES : Nat := 16

/-- Bound `QUERY_MAX_FINAL_STATES` of `main.c`. -/
def QUERY_MAX_FINAL_STATES : Nat := 16

/-- Largest value of the C type `int` (the type of the trial counter `run`). -/
def INT_MAX : Nat := 2147483647

/-! ## Machine integers -/

/-- Reinterpretation of an integer as an `int64_t` (two's complement). -/
def int64 (x : Int) : Int := (x + 2 ^ 63) % 2 ^ 64 - 2 ^ 63

/-- Conversion done by `fscanf("%ld")`: the integer itself when a `long` holds
it, otherwise `LONG_MAX` or `LONG_MIN`, whichever is nearer. -/
def scan_long (t : Int) : Int := max (-(2 ^ 63)) (min t (2 ^ 63 - 1))

/-- Reinterpretation of an integer as a `uint64_t` / `size_t`. -/
def uint64 (x : Int) : Nat := (x % 2 ^ 64).toNat

/-- Decrement `x--` of a `uint64_t`. -/
def dec64 (x : Nat) : Nat := (x + (2 ^ 64 - 1)) % 2 ^ 64

/-- Write `arr[i] = v` on an array seen as a map from indices to cells. -/
def store {α : Type} (arr : Nat → α) (i : Nat) (v : α) : Nat → α :=
  fun j => if j = i then v else arr j

/-! ## Data model -/

/-- The enumeration `enum query_kind`. -/
inductive query_kind where
  | SINGLE_SOURCE
  | SINGLE_DESTINATION
  | ALL_PATHS
  | FIXED_SOURCE_DESTINATION
  deriving DecidableEq, Repr

/-- Sparse matrix, by the list of the positions of its entries. -/
abbrev GrB_Matrix := List (Nat × Nat)

/-- Transpose of a sparse matrix (what `LAGraph_Cached_AT` caches). -/
def transpose (m : GrB_Matrix) : GrB_Matrix := m.map fun e => (e.2, e.1)

/-- Graph object `LAGraph_Graph`: the adjacency matrix `A` and the cached transpose `AT`. -/
structure LAGraph_Graph where
  A : GrB_Matrix
  AT : Option GrB_Matrix
  deriving DecidableEq, Repr

/-- The record `struct query`. A cell of `R` is `none` for a null or unset pointer. -/
structure query where
  kind : query_kind
  source : Int
  dest : Int
  label_count : Nat
  labels : Nat → Int
  inverse_labels : Nat → Bool
  R : Nat → Option LAGraph_Graph
  nqs : Nat
  qs : Nat → Nat
  nqf : Nat
  qf : Nat → Nat

/-- The fields of `struct config` read by the modelled functions. -/
structure config where
  heatup : Bool
  cache_transposed : Bool
  runs : Nat
  label_count : Nat
  query_count : Nat

/-- State of a file the program tries to read as a matrix: `fopen` fails, or
the file opens and `LAGraph_MMRead` / `LAGraph_New` / `LAGraph_Cached_AT` report
an error, or the file holds a matrix. -/
inductive MatrixFile where
  | absent
  | unreadable
  | matrix (m : GrB_Matrix)
  deriving DecidableEq, Repr

/-- Arguments of one call of `LAGraph_2RegularPathQuery`, in the order of its
parameters after the output vector. -/
structure SolverCall where
  R : Nat → Option LAGraph_Graph
  inverse_labels : Nat → Bool
  nl : Nat
  QS : Nat → Nat
  nqs : Nat
  QF : Nat → Nat
  nqf : Nat
  G : Nat → Option LAGraph_Graph
  S : List Int
  ns : Nat
  inverse : Bool

/-- The world outside the program. `dataset l` is the file `<dataset_dir>/l.txt`;
`solver c` is the number of entries of the vector returned by the solver called
with `c`, or `none` when the solver returns an error code; `results_opens` says
whether `Results/all.txt` can be opened for writing and `per_query_opens run i`
whether `Results/i.txt` can be opened for appending in trial `run`. -/
structure Env where
  dataset : Nat → MatrixFile
  solver : SolverCall → Option Nat
  results_opens : Bool
  per_query_opens : Nat → Nat → Bool

/-- Program state touched by `load_adjacency_matrix` and `bench`.
`GS` is the global graph cache. `all_txt` holds the lines written to
`Results/all.txt` as pairs (query number, answer), `per_query` the lines
appended to the per-query files as pairs (query number of the file, answer).
`resolved`, `opened` and `calls` are ghost traces. -/
structure World where
  GS : Nat → Option LAGraph_Graph
  resolved : List Nat
  opened : List Nat
  calls : List SolverCall
  all_txt : List (Nat × Nat)
  per_query : List (Nat × Nat)

/-- How a function ends: it returns a value, or the process exits (`exit(-1)`,
failed `assert`), or it runs into undefined behaviour. -/
inductive Outcome (α : Type) where
  | ret (a : α)
  | exit
  | undefined
  deriving DecidableEq, Repr

/-- Value returned, when the function returned. -/
def Outcome.value {α : Type} : Outcome α → Option α
  | .ret a => some a
  | .exit => none
  | .undefined => none

/-! ## `load_adjacency_matrix` -/

/-- The function `load_adjacency_matrix(config, label)`: returns 1 when the slot
`GS[label]` is filled, -1 when the dataset file cannot be opened, and otherwise
reads the matrix, builds the graph (with its transpose when
`cache_transposed`), stores it in `GS[label]` and returns 0. -/
def load_adjacency_matrix (cfg : config) (env : Env) (label : Nat) (w : World) :
    Outcome Int × World :=
  let w0 : World := { w with resolved := w.resolved ++ [label] }
  if cfg.label_count < label then (.undefined, w0)
  else if (w0.GS label).isSome then (.ret 1, w0)
  else
    let w1 : World := { w0 with opened := w0.opened ++ [label] }
    match env.dataset label with
    | .absent => (.ret (-1), w0)
    | .unreadable => (.exit, w1)
    | .matrix m =>
      let g : LAGraph_Graph :=
        { A := m, AT := if cfg.cache_transposed then some (transpose m) else none }
      (.ret 0, { w1 with GS := store w1.GS label (some g) })

/-! ## `load_query` -/

/-- One `fscanf(f, "%ld", &x)`: the `long` converted from the next integer of
the file, if any, and the rest of the file. -/
def fscanf_ld : List Int → Option Int × List Int
  | [] => (none, [])
  | t :: ts => (some (scan_long t), ts)

/-- Lines 212-231 of `load_query`: read `source` and `dest`, decrement both,
classify the query. -/
def read_endpoints (q : query) (f : List Int) : query × List Int :=
  let r1 := fscanf_ld f
  let source0 : Int := match r1.1 with
    | some t => t
    | none => q.source
  let r2 := fscanf_ld r1.2
  let dest0 : Int := match r2.1 with
    | some t => t
    | none => q.dest
  let source := int64 (source0 - 1)
  let dest := int64 (dest0 - 1)
  let kind :=
    if source = -1 ∧ dest = -1 then query_kind.ALL_PATHS
    else if dest = -1 then query_kind.SINGLE_SOURCE
    else if source = -1 then query_kind.SINGLE_DESTINATION
    else query_kind.FIXED_SOURCE_DESTINATION
  ({ q with kind := kind, source := source, dest := dest }, r2.2)

/-- The loops `for (i = 0; i < n; i++) { fscanf(f, "%ld", &arr[i]); arr[i]--; }`
that read the start states and the final states; `n` counts the iterations
left, `i` is the index. The `long` that `fscanf` stores is read back as a
`uint64_t`. -/
def read_states : Nat → Nat → (Nat → Nat) → List Int → (Nat → Nat) × List Int
  | 0, _, arr, f => (arr, f)
  | n + 1, i, arr, f =>
    let r := fscanf_ld f
    let v : Nat := match r.1 with
      | some t => uint64 t
      | none => arr i
    read_states n (i + 1) (store arr i (dec64 v)) r.2

/-- The loop of lines 252-258 that reads the labels; `n` counts the iterations
left, `i` is the index, `stale` the content of the stack slot of the local
`label`, which is not initialised: after a failed `fscanf` the slot keeps the
label of the iteration before (on entry, whatever the stack held). A write past
the 16 cells is `undefined`. -/
def read_labels : Nat → Nat → Int → query → List Int → Outcome (query × List Int)
  | 0, _, _, q, f => .ret (q, f)
  | n + 1, i, stale, q, f =>
    let r := fscanf_ld f
    let label : Int := match r.1 with
      | some t => t
      | none => stale
    if MAX_LABELS ≤ i then .undefined
    else
      read_labels n (i + 1) label
        { q with labels := store q.labels i label,
                 inverse_labels := store q.inverse_labels i (decide (label < 0)) }
        r.2

/-- The loop of lines 263-274 that loads the transition matrices of the query;
`qfile l` is the file `<query_dir>/<n>/l.txt`, named by the signed label. -/
def load_transitions (qfile : Int → MatrixFile) : Nat → Nat → query → Outcome query
  | 0, _, q => .ret q
  | n + 1, i, q =>
    match qfile (q.labels i) with
    | .absent => load_transitions qfile n (i + 1) q
    | .unreadable => .exit
    | .matrix m =>
      load_transitions qfile n (i + 1)
        { q with R := store q.R i (some { A := m, AT := some (transpose m) }) }

/-- The function `load_query`. `q0` is the content of the block returned by
`xmalloc`, `label0` the content of the stack slot of the local `label`,
`meta_txt` the integers of `meta.txt` (`none` when the file is missing). The
result is `none` for the null pointer. The counts are `size_t` variables read
with `%ld`. The number of labels is read into the local variable
`label_count`; the field `query->label_count` is not assigned. -/
def load_query (q0 : query) (label0 : Int) (meta_txt : Option (List Int))
    (qfile : Int → MatrixFile) : Outcome (Option query) :=
  match meta_txt with
  | none => .ret none
  | some f =>
    let e := read_endpoints q0 f
    let r1 := fscanf_ld e.2
    let nqs : Nat := match r1.1 with
      | some t => uint64 t
      | none => e.1.nqs
    if ¬ nqs < QUERY_MAX_STARTING_STATES then .exit
    else
      let s := read_states nqs 0 e.1.qs r1.2
      let r2 := fscanf_ld s.2
      let nqf : Nat := match r2.1 with
        | some t => uint64 t
        | none => e.1.nqf
      if ¬ nqf < QUERY_MAX_FINAL_STATES then .exit
      else
        let t := read_states nqf 0 e.1.qf r2.2
        let q1 : query := { e.1 with nqs := nqs, qs := s.1, nqf := nqf, qf := t.1 }
        let r3 := fscanf_ld t.2
        let label_count : Nat := match r3.1 with
          | some t => uint64 t
          | none => 0
        match read_labels label_count 0 label0 q1 r3.2 with
        | .exit => .exit
        | .undefined => .undefined
        | .ret (q2, _) =>
          match load_transitions qfile label_count 0 q2 with
          | .exit => .exit
          | .undefined => .undefined
          | .ret q3 => .ret (some q3)

/-! ## `bench` -/

/-- The loop of lines 327-337 of `bench` over the indices in `is`: resolve the
label `|labels[i]|` with `load_adjacency_matrix`, exit when it is not found,
store `GS[label]` in `G[i]`. The assertion of line 335 holds whenever control
reaches it (`load_adjacency_matrix_slot`). -/
def resolve_labels (cfg : config) (env : Env) (q : query) :
    List Nat → (Nat → Option LAGraph_Graph) → World →
      Outcome (Nat → Option LAGraph_Graph) × World
  | [], G, w => (.ret G, w)
  | i :: is, G, w =>
    if MAX_LABELS ≤ i then (.undefined, w)
    else
      let label : Nat := (q.labels i).natAbs
      match load_adjacency_matrix cfg env label w with
      | (.exit, w1) => (.exit, w1)
      | (.undefined, w1) => (.undefined, w1)
      | (.ret res, w1) =>
        if res < 0 then (.exit, w1)
        else resolve_labels cfg env q is (store G i (w1.GS label)) w1

/-- Lines 370-391 of `bench`: write the line of query `i` to `Results/all.txt`
and, in a trial after the heat-up one, append it to `Results/i.txt` when that
file opens. -/
def emit (env : Env) (run i answer : Nat) (w : World) : World :=
  let w1 : World := { w with all_txt := w.all_txt ++ [(i, answer)] }
  if 0 < run then
    if env.per_query_opens run i then { w1 with per_query := w1.per_query ++ [(i, answer)] }
    else w1
  else w1

/-- Call of `LAGraph_2RegularPathQuery` under the macro `OK`, followed by the
lines after the `switch`. -/
def dispatch (env : Env) (run i : Nat) (c : SolverCall) (w : World) : Outcome Unit × World :=
  let w1 : World := { w with calls := w.calls ++ [c] }
  match env.solver c with
  | none => (.exit, w1)
  | some answer => (.ret (), emit env run i answer w1)

/-- Body of the inner loop of `bench` (lines 317-391) for query number `i` in
trial `run`. The cells of the local array `G` start unset. The `switch` has no
case for `FIXED_SOURCE_DESTINATION`: control leaves it with
`reachable == NULL`, `GrB_Vector_nvals` on the null handle returns an error
code that is not looked at, and `answer` keeps its initial value 0.
`GrB_free` of the vector succeeds. -/
def bench_query (cfg : config) (env : Env) (queries : Nat → Option query)
    (run i : Nat) (w : World) : Outcome Unit × World :=
  match queries i with
  | none => (.ret (), w)
  | some q =>
    match resolve_labels cfg env q (List.range (q.label_count + 1)) (fun _ => none) w with
    | (.exit, w1) => (.exit, w1)
    | (.undefined, w1) => (.undefined, w1)
    | (.ret G, w1) =>
      match q.kind with
      | .SINGLE_SOURCE =>
        dispatch env run i
          { R := q.R, inverse_labels := q.inverse_labels, nl := q.label_count,
            QS := q.qs, nqs := q.nqs, QF := q.qf, nqf := q.nqf,
            G := G, S := [q.source], ns := 1, inverse := false } w1
      | .SINGLE_DESTINATION =>
        dispatch env run i
          { R := q.R, inverse_labels := q.inverse_labels, nl := q.label_count,
            QS := q.qf, nqs := q.nqf, QF := q.qs, nqf := q.nqs,
            G := G, S := [q.dest], ns := 1, inverse := true } w1
      | .ALL_PATHS => (.ret (), w1)
      | .FIXED_SOURCE_DESTINATION => (.ret (), emit env run i 0 w1)

/-- The inner loop of `bench` over the query numbers in `is`. -/
def bench_queries (cfg : config) (env : Env) (queries : Nat → Option query) (run : Nat) :
    List Nat → World → Outcome Unit × World
  | [], w => (.ret (), w)
  | i :: is, w =>
    match bench_query cfg env queries run i w with
    | (.ret _, w1) => bench_queries cfg env queries run is w1
    | r => r

/-- The outer loop of `bench` over the trial numbers in `rs`. The counter is
an `int`: `run++` at `INT_MAX` is `undefined`. -/
def bench_runs (cfg : config) (env : Env) (queries : Nat → Option query) :
    List Nat → World → Outcome Unit × World
  | [], w => (.ret (), w)
  | run :: rs, w =>
    match bench_queries cfg env queries run (List.range' 1 cfg.query_count) w with
    | (.ret _, w1) =>
      if run = INT_MAX then (.undefined, w1)
      else bench_runs cfg env queries rs w1
    | r => r

/-- Trial numbers for which the loop `for (run = heatup ? 0 : 1; run <= runs; run++)`
runs its body: from the first trial up to `runs`, and at most up to `INT_MAX`,
where the increment overflows (`bench_runs`). -/
def trials (cfg : config) : List Nat :=
  if cfg.heatup then List.range' 0 (min cfg.runs INT_MAX + 1)
  else List.range' 1 (min cfg.runs INT_MAX)

/-- The function `bench`: open (and truncate) `Results/all.txt`, then run the
trials. -/
def bench (cfg : config) (env : Env) (queries : Nat → Option query) (w : World) :
    Outcome Unit × World :=
  if env.results_opens then
    bench_runs cfg env queries (trials cfg) { w with all_txt := [] }
  else (.exit, w)

/-! ## Concrete inputs used below -/

/-- A block of memory filled with zeroes, read as a `struct query`. -/
def zeroed : query :=
  { kind := .SINGLE_SOURCE, source := 0, dest := 0, label_count := 0,
    labels := fun _ => 0, inverse_labels := fun _ => false, R := fun _ => none,
    nqs := 0, qs := fun _ => 0, nqf := 0, qf := fun _ => 0 }

/-- A query directory without transition matrix files. -/
def no_qfiles : Int → MatrixFile := fun _ => .absent

/-- The empty program state: no graph loaded, nothing written. -/
def World.empty : World :=
  { GS := fun _ => none, resolved := [], opened := [], calls := [],
    all_txt := [], per_query := [] }

/-- The description used for the endpoint claim: source 3, destination 0, one
start state, one final state, one label. -/
def meta_single_source : List Int := [3, 0, 1, 1, 1, 1, 1, 1]

/-- A description declaring 16 start states (all state 1), one final state and
one label. -/
def meta_sixteen_starts : List Int := [2, 0, 16] ++ List.replicate 16 1 ++ [1, 1, 1, 1]

/-- A description declaring one start state, 16 final states and one label. -/
def meta_sixteen_finals : List Int := [2, 0, 1, 1, 16] ++ List.replicate 16 1 ++ [1, 1]

/-- A description declaring one start state, one final state and 17 labels. -/
def meta_seventeen_labels : List Int := [2, 0, 1, 1, 1, 1, 17] ++ List.replicate 17 1

/-- A description declaring two labels, `1` and `-2`. -/
def meta_two_labels : List Int := [2, 0, 1, 1, 1, 1, 2, 1, -2]

/-- A configuration with one dataset label, one query, two trials, heat-up and
transpose caching enabled. -/
def cfg_small : config :=
  { heatup := true, cache_transposed := true, runs := 2, label_count := 1, query_count := 1 }

/-- A dataset holding only `1.txt`, the graph with the edges 0 → 1 and 1 → 2;
the solver answers 2 to every call and every result file opens. -/
def env_small : Env :=
  { dataset := fun l => if l = 1 then .matrix [(0, 1), (1, 2)] else .absent,
    solver := fun _ => some 2,
    results_opens := true,
    per_query_opens := fun _ _ => true }

/-- The query `load_query` returns for the description `m` loaded into a zeroed
block, with 0 in the stack slot of `label`, in a query directory without
matrix files (`none` when it returns no query). -/
def loaded (m : List Int) : Option query :=
  (load_query zeroed 0 (some m) no_qfiles).value.join

/-- A catalog holding the query `q` in slot 1 and nothing else. -/
def catalog (q : Option query) : Nat → Option query :=
  fun i => if i = 1 then q else none

/-- Present with a kind other than `ALL_PATHS`. -/
def Reported (queries : Nat → Option query) (i : Nat) : Prop :=
  ∃ q, queries i = some q ∧ q.kind ≠ query_kind.ALL_PATHS

/-- Number of lines of an output file that carry the query number `k`. -/
def lines_of (k : Nat) (out : List (Nat × Nat)) : Nat :=
  out.countP fun e => decide (e.1 = k)

/-- The output of `w1` is the output of `w` followed by lines that all carry the
number of a reported query. -/
def Extends (queries : Nat → Option query) (w w1 : World) : Prop :=
  ∃ l1 l2, w1.all_txt = w.all_txt ++ l1 ∧ w1.per_query = w.per_query ++ l2 ∧
    (∀ e ∈ l1, Reported queries e.1) ∧ (∀ e ∈ l2, Reported queries e.1)

/-- The query that `load_query` builds from the description `3 0 1 1 1 1 1 1`
in a zeroed block (see `loaded_single_source`). -/
def q_single_source : query :=
  { kind := .SINGLE_SOURCE, source := 2, dest := -1, label_count := 0,
    labels := store (fun _ => 0) 0 1, inverse_labels := store (fun _ => false) 0 false,
    R := fun _ => none,
    nqs := 1, qs := store (fun _ => 0) 0 0, nqf := 1, qf := store (fun _ => 0) 0 0 }

/-- The description `3 0 1 1 1 1 1 1` as a catalog of one query. -/
def catalog_single_source : Nat → Option query := catalog (some q_single_source)

/-- A description with both endpoints fixed (source 1, destination 2) and the
label 1. -/
def meta_fixed : List Int := [1, 2, 1, 1, 1, 1, 1, 1]

/-- A description of a single-source query that declares no label. -/
def meta_no_labels : List Int := [2, 0, 1, 1, 1, 1, 0]

/-- A description with no endpoint fixed and the label 5. -/
def meta_all_paths : List Int := [0, 0, 1, 1, 1, 1, 1, 5]

/-- A `SINGLE_SOURCE` query whose `label_count` is 1, with `labels[0] = 1` and
the value 7 in the next cell. -/
def q_one_label : query :=
  { q_single_source with label_count := 1, labels := store (store (fun _ => 0) 0 1) 1 7 }

/-- An `ALL_PATHS` query whose `label_count` is 1, with `labels[0] = 5`. -/
def q_all_paths : query :=
  { q_single_source with kind := .ALL_PATHS, source := -1, dest := -1, label_count := 1,
                         labels := store (fun _ => 0) 0 5 }

/-- An `ALL_PATHS` query with one label, the label 1, in both cells that
`bench` visits. -/
def q_all_paths_found : query :=
  { q_single_source with kind := .ALL_PATHS, source := -1, dest := -1, label_count := 1,
                         labels := fun _ => 1 }

/-- The configuration `cfg_small` with seven dataset labels. -/
def cfg_seven : config := { cfg_small with label_count := 7 }

/-- The graph of `1.txt` in `env_small`, with its cached transpose. -/
def g_small : LAGraph_Graph := { A := [(0, 1), (1, 2)], AT := some [(1, 0), (2, 1)] }

/-! ## Machine integer lemmas -/

/-- The trials are the values of the counter from its start to `runs`, as far
as an `int` reaches. -/
theorem mem_trials (cfg : config) (r : Nat) :
    r ∈ trials cfg ↔ (if cfg.heatup = true then 0 else 1) ≤ r ∧ r ≤ cfg.runs ∧ r ≤ INT_MAX := by
  unfold trials
  by_cases hh : cfg.heatup = true
  · simp only [hh, if_true, List.mem_range'_1]
    omega
  · simp only [hh, if_false, Bool.false_eq_true, List.mem_range'_1]
    omega

theorem int64_of_range (x : Int) (h1 : -2 ^ 63 ≤ x) (h2 : x < 2 ^ 63) : int64 x = x := by
  unfold int64
  omega

theorem int64_range (x : Int) : -2 ^ 63 ≤ int64 x ∧ int64 x < 2 ^ 63 := by
  unfold int64
  omega

/-- An integer that a `long` holds is read as it is written. -/
theorem scan_long_of_range (t : Int) (h1 : -2 ^ 63 ≤ t) (h2 : t < 2 ^ 63) : scan_long t = t := by
  unfold scan_long
  omega

/-- What `fscanf("%ld")` stores is always a `long`. -/
theorem scan_long_range (t : Int) : -2 ^ 63 ≤ scan_long t ∧ scan_long t < 2 ^ 63 := by
  unfold scan_long
  omega

/-! ## `load_query`: what the later loops leave untouched -/

theorem read_labels_frame (n : Nat) :
    ∀ (i : Nat) (stale : Int) (q : query) (f : List Int) (q2 : query) (f2 : List Int),
      read_labels n i stale q f = .ret (q2, f2) →
        q2.kind = q.kind ∧ q2.source = q.source ∧ q2.dest = q.dest ∧
        q2.label_count = q.label_count ∧ q2.R = q.R ∧
        q2.nqs = q.nqs ∧ q2.qs = q.qs ∧ q2.nqf = q.nqf ∧ q2.qf = q.qf := by
  induction n with
  | zero =>
    intro i stale q f q2 f2 h
    simp only [read_labels, Outcome.ret.injEq, Prod.mk.injEq] at h
    obtain ⟨rfl, -⟩ := h
    simp
  | succ n ih =>
    intro i stale q f q2 f2 h
    simp only [read_labels] at h
    split at h
    · exact absurd h (by simp)
    · simpa using ih _ _ _ _ _ _ h

theorem load_transitions_frame (qfile : Int → MatrixFile) (n : Nat) :
    ∀ (i : Nat) (q q3 : query),
      load_transitions qfile n i q = .ret q3 →
        q3.kind = q.kind ∧ q3.source = q.source ∧ q3.dest = q.dest ∧
        q3.label_count = q.label_count ∧ q3.labels = q.labels ∧
        q3.inverse_labels = q.inverse_labels ∧
        q3.nqs = q.nqs ∧ q3.qs = q.qs ∧ q3.nqf = q.nqf ∧ q3.qf = q.qf := by
  induction n with
  | zero =>
    intro i q q3 h
    simp only [load_transitions, Outcome.ret.injEq] at h
    subst h
    simp
  | succ n ih =>
    intro i q q3 h
    simp only [load_transitions] at h
    split at h
    · exact ih _ _ _ h
    · exact absurd h (by simp)
    · simpa using ih _ _ _ h

/-- Whatever `load_query` returns carries the endpoints and the kind computed by
`read_endpoints`, and the `label_count` field of the block it was given. -/
theorem load_query_frame (q0 : query) (label0 : Int) (f : List Int)
    (qfile : Int → MatrixFile) (q : query)
    (h : load_query q0 label0 (some f) qfile = .ret (some q)) :
    q.kind = (read_endpoints q0 f).1.kind ∧ q.source = (read_endpoints q0 f).1.source ∧
    q.dest = (read_endpoints q0 f).1.dest ∧ q.label_count = q0.label_count := by
  simp only [load_query] at h
  split at h
  · exact absurd h (by simp)
  · split at h
    · exact absurd h (by simp)
    · split at h
      · exact absurd h (by simp)
      · exact absurd h (by simp)
      · rename_i q2 f2 hl
        split at h
        · exact absurd h (by simp)
        · exact absurd h (by simp)
        · rename_i q3 ht
          simp only [Outcome.ret.injEq, Option.some.injEq] at h
          subst h
          have h1 := read_labels_frame _ _ _ _ _ _ _ hl
          have h2 := load_transitions_frame _ _ _ _ _ ht
          obtain ⟨a1, a2, a3, a4, -⟩ := h1
          obtain ⟨b1, b2, b3, b4, -⟩ := h2
          simp only [b1, b2, b3, b4, a1, a2, a3, a4]
          simp [read_endpoints]

/-! ## C1: endpoints and kind -/

/-- C1. Let the first two integers `s` and `d` of a description be values
that a `long` holds, with `s ≥ 0` and `d ≥ 0`. Lines 212-231 of `load_query`
store `source = s - 1` and `dest = d - 1` and set the kind by the table:
`ALL_PATHS` for `(-1, -1)`, `SINGLE_DESTINATION` for `(-1, ≥ 0)`,
`SINGLE_SOURCE` for `(≥ 0, -1)`, `FIXED_SOURCE_DESTINATION` for `(≥ 0, ≥ 0)`;
exactly one row applies, and every query that `load_query` returns for this
description carries these fields. -/
theorem load_query_endpoints_kind (q0 : query) (s d : Int) (rest : List Int)
    (hs : 0 ≤ s) (hs64 : s < 2 ^ 63) (hd : 0 ≤ d) (hd64 : d < 2 ^ 63) :
    (read_endpoints q0 (s :: d :: rest)).1.source = s - 1 ∧
    (read_endpoints q0 (s :: d :: rest)).1.dest = d - 1 ∧
    (read_endpoints q0 (s :: d :: rest)).1.kind =
      (if s - 1 = -1 ∧ d - 1 = -1 then query_kind.ALL_PATHS
       else if s - 1 = -1 ∧ 0 ≤ d - 1 then query_kind.SINGLE_DESTINATION
       else if 0 ≤ s - 1 ∧ d - 1 = -1 then query_kind.SINGLE_SOURCE
       else query_kind.FIXED_SOURCE_DESTINATION) ∧
    ((s - 1 = -1 ∧ d - 1 = -1) ∨ (s - 1 = -1 ∧ 0 ≤ d - 1) ∨
      (0 ≤ s - 1 ∧ d - 1 = -1) ∨ (0 ≤ s - 1 ∧ 0 ≤ d - 1)) ∧
    ∀ (label0 : Int) (qfile : Int → MatrixFile) (q : query),
      load_query q0 label0 (some (s :: d :: rest)) qfile = .ret (some q) →
        q.source = s - 1 ∧ q.dest = d - 1 ∧
        q.kind = (read_endpoints q0 (s :: d :: rest)).1.kind := by
  have e1 : scan_long s = s := scan_long_of_range s (by omega) hs64
  have e2 : scan_long d = d := scan_long_of_range d (by omega) hd64
  have e3 : int64 (s - 1) = s - 1 := int64_of_range (s - 1) (by omega) (by omega)
  have e4 : int64 (d - 1) = d - 1 := int64_of_range (d - 1) (by omega) (by omega)
  have hsrc : (read_endpoints q0 (s :: d :: rest)).1.source = s - 1 := by
    simp [read_endpoints, fscanf_ld, e1, e3]
  have hdst : (read_endpoints q0 (s :: d :: rest)).1.dest = d - 1 := by
    simp [read_endpoints, fscanf_ld, e2, e4]
  refine ⟨hsrc, hdst, ?_, ?_, ?_⟩
  · simp only [read_endpoints, fscanf_ld, e1, e2, e3, e4]
    by_cases a : s - 1 = -1 <;> by_cases b : d - 1 = -1
    · simp [a, b]
    · have : 0 ≤ d - 1 := by omega
      simp [a, b, this]
    · have : 0 ≤ s - 1 := by omega
      simp [a, b, this]
    · simp [a, b]
  · omega
  · intro label0 qfile q h
    have hf := load_query_frame q0 label0 _ qfile q h
    exact ⟨hf.2.1.trans hsrc, hf.2.2.1.trans hdst, hf.1⟩

/-- Witness of C1 on the description `3 0 1 1 1 1 1 1` loaded into a zeroed
block: source 2, no destination, kind `SINGLE_SOURCE`. -/
theorem load_query_endpoints_kind_witness :
    (0 : Int) ≤ 3 ∧ (3 : Int) < 2 ^ 63 ∧ (0 : Int) ≤ 0 ∧ (0 : Int) < 2 ^ 63 ∧
    (read_endpoints zeroed (3 :: 0 :: [1, 1, 1, 1, 1, 1])).1.source = 2 ∧
    (read_endpoints zeroed (3 :: 0 :: [1, 1, 1, 1, 1, 1])).1.dest = -1 ∧
    (read_endpoints zeroed (3 :: 0 :: [1, 1, 1, 1, 1, 1])).1.kind =
      query_kind.SINGLE_SOURCE ∧
    ∀ (label0 : Int) (qfile : Int → MatrixFile) (q : query),
      load_query zeroed label0 (some (3 :: 0 :: [1, 1, 1, 1, 1, 1])) qfile = .ret (some q) →
        q.source = 3 - 1 ∧ q.dest = 0 - 1 ∧
        q.kind = (read_endpoints zeroed (3 :: 0 :: [1, 1, 1, 1, 1, 1])).1.kind :=
  ⟨by decide, by decide, by decide, by decide,
    (load_query_endpoints_kind zeroed 3 0 [1, 1, 1, 1, 1, 1] (by decide) (by decide)
      (by decide) (by decide)).1.trans (by decide),
    (load_query_endpoints_kind zeroed 3 0 [1, 1, 1, 1, 1, 1] (by decide) (by decide)
      (by decide) (by decide)).2.1.trans (by decide),
    (load_query_endpoints_kind zeroed 3 0 [1, 1, 1, 1, 1, 1] (by decide) (by decide)
      (by decide) (by decide)).2.2.1.trans (by decide),
    (load_query_endpoints_kind zeroed 3 0 [1, 1, 1, 1, 1, 1] (by decide) (by decide)
      (by decide) (by decide)).2.2.2.2⟩

/-- The description of the C1 witness is loaded, as a `SINGLE_SOURCE` query. -/
theorem load_query_single_source_example :
    ∃ q, load_query zeroed 0 (some meta_single_source) no_qfiles = .ret (some q) ∧
      q.kind = query_kind.SINGLE_SOURCE ∧ q.source = 2 ∧ q.dest = -1 :=
  ⟨_, rfl, rfl, rfl, rfl⟩

/-- Reads outside the well-formed case. An integer above `LONG_MAX` is stored as
`LONG_MAX`: the source `2^64` gives `source = 2^63 - 2`, a start-state count
`2^64 + 1` fails the assertion, the label `2^63` is stored as `2^63 - 1`, not
inverse. When the file ends before the declared labels, the cells left take
the label read last (or what the stack slot held). -/
theorem load_query_irregular_reads :
    Option.map query.source (loaded [18446744073709551616, 0, 1, 1, 1, 1, 1, 1]) =
      some 9223372036854775806 ∧
    Option.map query.kind (loaded [18446744073709551616, 0, 1, 1, 1, 1, 1, 1]) =
      some query_kind.SINGLE_SOURCE ∧
    load_query zeroed 0 (some [2, 0, 18446744073709551617, 1, 1, 1, 1, 1]) no_qfiles = .exit ∧
    Option.map (fun q => (q.labels 0, q.inverse_labels 0))
        (loaded [2, 0, 1, 1, 1, 1, 1, 9223372036854775808]) =
      some (9223372036854775807, false) ∧
    Option.map (fun q => (q.labels 0, q.labels 1, q.labels 2))
        (load_query zeroed 99 (some [2, 0, 1, 1, 1, 1, 3, 5]) no_qfiles).value.join =
      some (5, 5, 5) ∧
    Option.map (fun q => (q.labels 0, q.labels 1))
        (load_query zeroed 99 (some [2, 0, 1, 1, 1, 1, 2]) no_qfiles).value.join =
      some (99, 99) :=
  ⟨rfl, rfl, rfl, rfl, rfl, rfl⟩

/-! ## C4: the bounds on the three counts -/

/-- C4 (evaluation at the failing inputs). A description declaring exactly 16
start states, or exactly 16 final states, makes `load_query` exit: the
assertions read `nqs < 16` and `nqf < 16`. A description declaring 17 labels
does not make it exit: the label count is not checked and the loop writes past
the 16 cells of `labels`. Counts of 15 states and 16 labels are loaded. -/
theorem load_query_count_checks :
    load_query zeroed 0 (some meta_sixteen_starts) no_qfiles = .exit ∧
    load_query zeroed 0 (some meta_sixteen_finals) no_qfiles = .exit ∧
    load_query zeroed 0 (some meta_seventeen_labels) no_qfiles = .undefined ∧
    (load_query zeroed 0
      (some ([2, 0, 15] ++ List.replicate 15 1 ++ [15] ++ List.replicate 15 1 ++ [16] ++
        List.replicate 16 1)) no_qfiles).value.isSome = true :=
  ⟨rfl, rfl, rfl, rfl⟩

/-! ## C9: the labels of the query -/

/-- C9 (evaluation at the failing input). From the description
`2 0 1 1 1 1 2 1 -2`, which declares two labels, `load_query` on a zeroed block
returns a query with `labels = [1, -2]` and `inverse_labels = [false, true]`
but `label_count = 0`: the declared count stays in a local variable. On a block
that held 7 in the field, the query returned has `label_count = 7`. -/
theorem load_query_label_count_not_stored :
    (∃ q, load_query zeroed 0 (some meta_two_labels) no_qfiles = .ret (some q) ∧
      q.label_count = 0 ∧ q.labels 0 = 1 ∧ q.labels 1 = -2 ∧
      q.inverse_labels 0 = false ∧ q.inverse_labels 1 = true) ∧
    (∃ q, load_query { zeroed with label_count := 7 } 0 (some meta_two_labels) no_qfiles =
        .ret (some q) ∧
      q.label_count = 7 ∧ q.labels 0 = 1 ∧ q.labels 1 = -2) :=
  ⟨⟨_, rfl, rfl, rfl, rfl, rfl, rfl⟩, ⟨_, rfl, rfl, rfl, rfl⟩⟩

/-! ## C6: a second load of a label -/

/-- C6. When `load_adjacency_matrix` has loaded `label` (returned 0), a second
call returns 1 and changes nothing but the ghost trace of calls: every slot of
`GS` is as the first call left it, the slot of `label` is filled, and no file
is opened. -/
theorem load_adjacency_matrix_idempotent (cfg : config) (env : Env) (label : Nat)
    (w w1 : World) (h : load_adjacency_matrix cfg env label w = (.ret 0, w1)) :
    load_adjacency_matrix cfg env label w1 =
      (.ret 1, { w1 with resolved := w1.resolved ++ [label] }) ∧
    (load_adjacency_matrix cfg env label w1).2.GS = w1.GS ∧
    (load_adjacency_matrix cfg env label w1).2.opened = w1.opened ∧
    (w1.GS label).isSome = true := by
  have key : ¬ cfg.label_count < label ∧ (w1.GS label).isSome = true := by
    simp only [load_adjacency_matrix] at h
    by_cases hb : cfg.label_count < label
    · simp [hb] at h
    · by_cases hs : (w.GS label).isSome = true
      · simp [hb, hs] at h
      · cases hd : env.dataset label with
        | absent => simp [hb, hs, hd] at h
        | unreadable => simp [hb, hs, hd] at h
        | matrix m =>
          simp only [hb, hs, hd, if_false, Bool.false_eq_true, Prod.mk.injEq, true_and] at h
          subst h
          exact ⟨hb, by simp [store]⟩
  have h2 : load_adjacency_matrix cfg env label w1 =
      (.ret 1, { w1 with resolved := w1.resolved ++ [label] }) := by
    unfold load_adjacency_matrix
    simp [key.1, key.2]
  refine ⟨h2, ?_, ?_, key.2⟩
  · rw [h2]
  · rw [h2]

/-- Witness of C6: label 1 of the small dataset, loaded into the empty cache. -/
theorem load_adjacency_matrix_idempotent_witness :
    load_adjacency_matrix cfg_small env_small 1 World.empty =
      (.ret 0, (load_adjacency_matrix cfg_small env_small 1 World.empty).2) ∧
    (load_adjacency_matrix cfg_small env_small 1
        (load_adjacency_matrix cfg_small env_small 1 World.empty).2).1 = .ret 1 ∧
    (load_adjacency_matrix cfg_small env_small 1
        (load_adjacency_matrix cfg_small env_small 1 World.empty).2).2.opened = [1] :=
  ⟨rfl,
    congrArg Prod.fst (load_adjacency_matrix_idempotent cfg_small env_small 1 World.empty
      (load_adjacency_matrix cfg_small env_small 1 World.empty).2 rfl).1,
    (load_adjacency_matrix_idempotent cfg_small env_small 1 World.empty
      (load_adjacency_matrix cfg_small env_small 1 World.empty).2 rfl).2.2.1.trans rfl⟩

/-! ## `bench`: label resolution leaves the output alone -/

theorem load_adjacency_matrix_frame (cfg : config) (env : Env) (label : Nat) (w : World) :
    (load_adjacency_matrix cfg env label w).2.calls = w.calls ∧
    (load_adjacency_matrix cfg env label w).2.all_txt = w.all_txt ∧
    (load_adjacency_matrix cfg env label w).2.per_query = w.per_query := by
  simp only [load_adjacency_matrix]
  by_cases hb : cfg.label_count < label
  · simp [hb]
  · by_cases hs : (w.GS label).isSome = true
    · simp [hb, hs]
    · cases hd : env.dataset label <;> simp [hb, hs, hd]

theorem resolve_labels_frame (cfg : config) (env : Env) (q : query) (is : List Nat) :
    ∀ (G : Nat → Option LAGraph_Graph) (w : World),
      (resolve_labels cfg env q is G w).2.calls = w.calls ∧
      (resolve_labels cfg env q is G w).2.all_txt = w.all_txt ∧
      (resolve_labels cfg env q is G w).2.per_query = w.per_query := by
  induction is with
  | nil => intro G w; simp [resolve_labels]
  | cons i is ih =>
    intro G w
    have hf := load_adjacency_matrix_frame cfg env (q.labels i).natAbs w
    simp only [resolve_labels]
    split
    · simp
    · split
      · rename_i w1 he
        rw [he] at hf
        exact hf
      · rename_i w1 he
        rw [he] at hf
        exact hf
      · rename_i res w1 he
        rw [he] at hf
        split
        · exact hf
        · have h2 := ih (store G i (w1.GS (q.labels i).natAbs)) w1
          exact ⟨h2.1.trans hf.1, h2.2.1.trans hf.2.1, h2.2.2.trans hf.2.2⟩

/-- The assertion `GS[label] != NULL` of line 335 cannot fail: when
`load_adjacency_matrix` returns 0 or 1, the slot of the label is filled. -/
theorem load_adjacency_matrix_slot (cfg : config) (env : Env) (label : Nat) (w w1 : World)
    (res : Int) (h : load_adjacency_matrix cfg env label w = (.ret res, w1))
    (hres : ¬ res < 0) : (w1.GS label).isSome = true := by
  simp only [load_adjacency_matrix] at h
  by_cases hb : cfg.label_count < label
  · simp [hb] at h
  · by_cases hs : (w.GS label).isSome = true
    · simp only [hb, hs, if_false, if_true, Prod.mk.injEq, Outcome.ret.injEq] at h
      obtain ⟨-, rfl⟩ := h
      exact hs
    · cases hd : env.dataset label with
      | absent =>
        simp only [hb, hs, hd, if_false, Bool.false_eq_true, Prod.mk.injEq,
          Outcome.ret.injEq] at h
        obtain ⟨rfl, -⟩ := h
        exact absurd (by decide) hres
      | unreadable => simp [hb, hs, hd] at h
      | matrix m =>
        simp only [hb, hs, hd, if_false, Bool.false_eq_true, Prod.mk.injEq,
          Outcome.ret.injEq] at h
        obtain ⟨-, rfl⟩ := h
        simp [store]

/-- A label inside the cache whose dataset file holds a matrix is resolved:
`load_adjacency_matrix` returns 0 or 1. -/
theorem load_adjacency_matrix_found (cfg : config) (env : Env) (label : Nat) (w : World)
    (hb : label ≤ cfg.label_count) (m : GrB_Matrix) (hd : env.dataset label = .matrix m) :
    ∃ res w1, load_adjacency_matrix cfg env label w = (.ret res, w1) ∧ ¬ res < 0 := by
  have hb2 : ¬ cfg.label_count < label := by omega
  by_cases hs : (w.GS label).isSome = true
  · refine ⟨1, (load_adjacency_matrix cfg env label w).2, ?_, by decide⟩
    simp only [load_adjacency_matrix, hb2, hs, if_false, if_true]
  · refine ⟨0, (load_adjacency_matrix cfg env label w).2, ?_, by decide⟩
    simp only [load_adjacency_matrix, hb2, hs, hd, if_false, Bool.false_eq_true]

/-- When every index of `is` is inside `labels` and names a label that is found,
the resolution loop returns. -/
theorem resolve_labels_found (cfg : config) (env : Env) (q : query) (is : List Nat)
    (h : ∀ j ∈ is, j < MAX_LABELS ∧ (q.labels j).natAbs ≤ cfg.label_count ∧
      ∃ m, env.dataset (q.labels j).natAbs = .matrix m) :
    ∀ (G : Nat → Option LAGraph_Graph) (w : World),
      ∃ G1 w1, resolve_labels cfg env q is G w = (.ret G1, w1) := by
  induction is with
  | nil => intro G w; exact ⟨G, w, rfl⟩
  | cons i is ih =>
    intro G w
    obtain ⟨hi, hb, m, hd⟩ := h i (List.mem_cons_self i is)
    obtain ⟨res, w1, he, hres⟩ := load_adjacency_matrix_found cfg env _ w hb m hd
    have hi2 : ¬ MAX_LABELS ≤ i := by omega
    obtain ⟨G1, w2, h2⟩ :=
      ih (fun j hj => h j (List.mem_cons_of_mem i hj)) (store G i (w1.GS (q.labels i).natAbs)) w1
    exact ⟨G1, w2, by simp only [resolve_labels, hi2, if_false, he, hres]; exact h2⟩

/-! ## `bench`: one query in one trial -/

theorem emit_calls (env : Env) (run i a : Nat) (w : World) :
    (emit env run i a w).calls = w.calls := by
  unfold emit
  split_ifs <;> rfl

theorem emit_all_txt (env : Env) (run i a : Nat) (w : World) :
    (emit env run i a w).all_txt = w.all_txt ++ [(i, a)] := by
  unfold emit
  split_ifs <;> rfl

theorem emit_per_query (env : Env) (run i a : Nat) (w : World) :
    (emit env run i a w).per_query =
      w.per_query ++ (if 0 < run ∧ env.per_query_opens run i = true then [(i, a)] else []) := by
  unfold emit
  split_ifs <;> simp_all

theorem dispatch_calls (env : Env) (run i : Nat) (c : SolverCall) (w : World) :
    (dispatch env run i c w).2.calls = w.calls ++ [c] := by
  unfold dispatch
  split
  · rfl
  · simp [emit_calls]

theorem bench_query_absent (cfg : config) (env : Env) (queries : Nat → Option query)
    (run i : Nat) (w : World) (hq : queries i = none) :
    bench_query cfg env queries run i w = (.ret (), w) := by
  simp [bench_query, hq]

theorem bench_query_resolved (cfg : config) (env : Env) (queries : Nat → Option query)
    (run i : Nat) (w : World) (q : query) (G : Nat → Option LAGraph_Graph) (w1 : World)
    (hq : queries i = some q)
    (hr : resolve_labels cfg env q (List.range (q.label_count + 1)) (fun _ => none) w
      = (.ret G, w1)) :
    bench_query cfg env queries run i w =
      match q.kind with
      | .SINGLE_SOURCE =>
        dispatch env run i
          { R := q.R, inverse_labels := q.inverse_labels, nl := q.label_count,
            QS := q.qs, nqs := q.nqs, QF := q.qf, nqf := q.nqf,
            G := G, S := [q.source], ns := 1, inverse := false } w1
      | .SINGLE_DESTINATION =>
        dispatch env run i
          { R := q.R, inverse_labels := q.inverse_labels, nl := q.label_count,
            QS := q.qf, nqs := q.nqf, QF := q.qs, nqf := q.nqs,
            G := G, S := [q.dest], ns := 1, inverse := true } w1
      | .ALL_PATHS => (.ret (), w1)
      | .FIXED_SOURCE_DESTINATION => (.ret (), emit env run i 0 w1) := by
  simp only [bench_query, hq, hr]

theorem bench_query_unresolved (cfg : config) (env : Env) (queries : Nat → Option query)
    (run i : Nat) (w : World) (q : query) (hq : queries i = some q)
    (hr : ∀ G, (resolve_labels cfg env q (List.range (q.label_count + 1)) (fun _ => none) w).1
      ≠ .ret G) :
    (bench_query cfg env queries run i w).2 =
      (resolve_labels cfg env q (List.range (q.label_count + 1)) (fun _ => none) w).2 ∧
    ∀ u, (bench_query cfg env queries run i w).1 ≠ .ret u := by
  simp only [bench_query, hq]
  split
  · rename_i he
    simp [he]
  · rename_i he
    simp [he]
  · rename_i G w1 he
    exact absurd (by rw [he]) (hr G)

/-! ## C7: the arguments of the solver -/

/-- C7. When `bench` reaches the `switch` for a present query (its labels are
resolved, giving the array `G`), it calls the solver once: for `SINGLE_SOURCE`
with the anchor `[source]`, `qs`/`nqs` as start states, `qf`/`nqf` as final
states and the flag `false`; for `SINGLE_DESTINATION` with the anchor `[dest]`,
`qf`/`nqf` as start states, `qs`/`nqs` as final states and the flag `true`; in
both cases with the query's `R`, `inverse_labels` and `label_count`. -/
theorem bench_query_solver_arguments (cfg : config) (env : Env)
    (queries : Nat → Option query) (run i : Nat) (w : World) (q : query)
    (G : Nat → Option LAGraph_Graph) (w1 : World)
    (hq : queries i = some q)
    (hr : resolve_labels cfg env q (List.range (q.label_count + 1)) (fun _ => none) w
      = (.ret G, w1)) :
    (q.kind = .SINGLE_SOURCE →
      (bench_query cfg env queries run i w).2.calls = w.calls ++
        [{ R := q.R, inverse_labels := q.inverse_labels, nl := q.label_count,
           QS := q.qs, nqs := q.nqs, QF := q.qf, nqf := q.nqf,
           G := G, S := [q.source], ns := 1, inverse := false }]) ∧
    (q.kind = .SINGLE_DESTINATION →
      (bench_query cfg env queries run i w).2.calls = w.calls ++
        [{ R := q.R, inverse_labels := q.inverse_labels, nl := q.label_count,
           QS := q.qf, nqs := q.nqf, QF := q.qs, nqf := q.nqs,
           G := G, S := [q.dest], ns := 1, inverse := true }]) := by
  have hf := (resolve_labels_frame cfg env q (List.range (q.label_count + 1))
    (fun _ => none) w).1
  rw [hr] at hf
  have hb := bench_query_resolved cfg env queries run i w q G w1 hq hr
  constructor
  · intro hk
    rw [hb, hk]
    simp only [dispatch_calls]
    rw [hf]
  · intro hk
    rw [hb, hk]
    simp only [dispatch_calls]
    rw [hf]

/-- The query `q_single_source` is what `load_query` returns for its description. -/
theorem loaded_single_source : loaded meta_single_source = some q_single_source := rfl

/-- Witness of C7: trial 0 on the catalog holding the `SINGLE_SOURCE` query of
the description `3 0 1 1 1 1 1 1`, whose label 1 is in the dataset. -/
theorem bench_query_solver_arguments_witness :
    catalog_single_source 1 = some q_single_source ∧
    resolve_labels cfg_small env_small q_single_source
        (List.range (q_single_source.label_count + 1)) (fun _ => none) World.empty =
      (.ret (store (fun _ => none) 0 (some g_small)),
        { World.empty with GS := store (fun _ => none) 1 (some g_small),
                           resolved := [1], opened := [1] }) ∧
    q_single_source.kind = .SINGLE_SOURCE ∧
    (bench_query cfg_small env_small catalog_single_source 0 1 World.empty).2.calls =
      World.empty.calls ++
      [{ R := q_single_source.R, inverse_labels := q_single_source.inverse_labels,
         nl := q_single_source.label_count,
         QS := q_single_source.qs, nqs := q_single_source.nqs,
         QF := q_single_source.qf, nqf := q_single_source.nqf,
         G := store (fun _ => none) 0 (some g_small),
         S := [q_single_source.source], ns := 1, inverse := false }] :=
  ⟨rfl, rfl, rfl,
    (bench_query_solver_arguments cfg_small env_small catalog_single_source 0 1 World.empty
      q_single_source (store (fun _ => none) 0 (some g_small))
      { World.empty with GS := store (fun _ => none) 1 (some g_small),
                         resolved := [1], opened := [1] } rfl rfl).1 rfl⟩

/-! ## C8: which query numbers reach the output -/

theorem Extends.refl (queries : Nat → Option query) (w : World) : Extends queries w w :=
  ⟨[], [], by simp, by simp, by simp, by simp⟩

theorem Extends.trans {queries : Nat → Option query} {w1 w2 w3 : World}
    (h12 : Extends queries w1 w2) (h23 : Extends queries w2 w3) : Extends queries w1 w3 := by
  obtain ⟨a1, a2, ha1, ha2, hA1, hA2⟩ := h12
  obtain ⟨b1, b2, hb1, hb2, hB1, hB2⟩ := h23
  refine ⟨a1 ++ b1, a2 ++ b2, ?_, ?_, ?_, ?_⟩
  · rw [hb1, ha1, List.append_assoc]
  · rw [hb2, ha2, List.append_assoc]
  · intro e he
    rcases List.mem_append.mp he with h | h
    · exact hA1 e h
    · exact hB1 e h
  · intro e he
    rcases List.mem_append.mp he with h | h
    · exact hA2 e h
    · exact hB2 e h

theorem Extends.of_frame {queries : Nat → Option query} {w w1 : World}
    (h1 : w1.all_txt = w.all_txt) (h2 : w1.per_query = w.per_query) : Extends queries w w1 :=
  ⟨[], [], by simp [h1], by simp [h2], by simp, by simp⟩

theorem emit_extends (queries : Nat → Option query) (env : Env) (run i a : Nat) (w : World)
    (hi : Reported queries i) : Extends queries w (emit env run i a w) := by
  refine ⟨[(i, a)], if 0 < run ∧ env.per_query_opens run i = true then [(i, a)] else [],
    emit_all_txt env run i a w, emit_per_query env run i a w, ?_, ?_⟩
  · intro e he
    simp only [List.mem_singleton] at he
    subst he
    exact hi
  · intro e he
    split_ifs at he
    · simp only [List.mem_singleton] at he
      subst he
      exact hi
    · simp at he

theorem dispatch_extends (queries : Nat → Option query) (env : Env) (run i : Nat)
    (c : SolverCall) (w : World) (hi : Reported queries i) :
    Extends queries w (dispatch env run i c w).2 := by
  unfold dispatch
  split
  · exact Extends.of_frame rfl rfl
  · exact Extends.trans (Extends.of_frame rfl rfl) (emit_extends queries env run i _ _ hi)

theorem bench_query_extends (cfg : config) (env : Env) (queries : Nat → Option query)
    (run i : Nat) (w : World) : Extends queries w (bench_query cfg env queries run i w).2 := by
  cases hq : queries i with
  | none =>
    rw [bench_query_absent cfg env queries run i w hq]
    exact Extends.refl queries w
  | some q =>
    have hf := resolve_labels_frame cfg env q (List.range (q.label_count + 1))
      (fun _ => none) w
    have hfr : Extends queries w
        (resolve_labels cfg env q (List.range (q.label_count + 1)) (fun _ => none) w).2 :=
      Extends.of_frame hf.2.1 hf.2.2
    cases hr : resolve_labels cfg env q (List.range (q.label_count + 1)) (fun _ => none) w with
    | mk o w1 =>
      rw [hr] at hfr
      cases o with
      | exit =>
        have h := (bench_query_unresolved cfg env queries run i w q hq (by simp [hr])).1
        rw [h, hr]
        exact hfr
      | undefined =>
        have h := (bench_query_unresolved cfg env queries run i w q hq (by simp [hr])).1
        rw [h, hr]
        exact hfr
      | ret G =>
        rw [bench_query_resolved cfg env queries run i w q G w1 hq hr]
        cases hk : q.kind with
        | SINGLE_SOURCE =>
          exact Extends.trans hfr (dispatch_extends queries env run i _ w1 ⟨q, hq, by simp [hk]⟩)
        | SINGLE_DESTINATION =>
          exact Extends.trans hfr (dispatch_extends queries env run i _ w1 ⟨q, hq, by simp [hk]⟩)
        | ALL_PATHS => exact hfr
        | FIXED_SOURCE_DESTINATION =>
          exact Extends.trans hfr (emit_extends queries env run i 0 w1 ⟨q, hq, by simp [hk]⟩)

theorem bench_queries_extends (cfg : config) (env : Env) (queries : Nat → Option query)
    (run : Nat) (is : List Nat) :
    ∀ w, Extends queries w (bench_queries cfg env queries run is w).2 := by
  induction is with
  | nil => intro w; exact Extends.refl queries w
  | cons i is ih =>
    intro w
    have h1 := bench_query_extends cfg env queries run i w
    simp only [bench_queries]
    split
    · rename_i u w1 he
      rw [he] at h1
      exact Extends.trans h1 (ih w1)
    · exact h1

theorem bench_runs_extends (cfg : config) (env : Env) (queries : Nat → Option query)
    (rs : List Nat) : ∀ w, Extends queries w (bench_runs cfg env queries rs w).2 := by
  induction rs with
  | nil => intro w; exact Extends.refl queries w
  | cons run rs ih =>
    intro w
    have h1 := bench_queries_extends cfg env queries run (List.range' 1 cfg.query_count) w
    simp only [bench_runs]
    split
    · rename_i u w1 he
      rw [he] at h1
      split
      · exact h1
      · exact Extends.trans h1 (ih w1)
    · exact h1

/-- C8. Every line that `bench` writes carries the number of a present query
whose kind is not `ALL_PATHS`: `Results/all.txt`, when it opens, holds only
such lines, and only such lines are appended to the per-query files. This
holds however the run ends. -/
theorem bench_output_reported (cfg : config) (env : Env) (queries : Nat → Option query)
    (w : World) :
    ∃ l1 l2,
      (bench cfg env queries w).2.all_txt = (if env.results_opens then l1 else w.all_txt) ∧
      (bench cfg env queries w).2.per_query = w.per_query ++ l2 ∧
      (∀ e ∈ l1, ∃ q, queries e.1 = some q ∧ q.kind ≠ query_kind.ALL_PATHS) ∧
      (∀ e ∈ l2, ∃ q, queries e.1 = some q ∧ q.kind ≠ query_kind.ALL_PATHS) := by
  unfold bench
  by_cases ho : env.results_opens = true
  · obtain ⟨l1, l2, h1, h2, h3, h4⟩ :=
      bench_runs_extends cfg env queries (trials cfg) { w with all_txt := [] }
    refine ⟨l1, l2, ?_, ?_, h3, h4⟩
    · simpa [ho] using h1
    · simpa [ho] using h2
  · exact ⟨[], [], by simp [ho], by simp [ho], by simp, by simp⟩

/-- Witness of C8 on the small catalog: the three lines of `Results/all.txt` and
the two lines of `Results/1.txt` carry the number 1 of its only query. -/
theorem bench_output_reported_witness :
    (bench cfg_small env_small catalog_single_source World.empty).2.all_txt =
      [(1, 2), (1, 2), (1, 2)] ∧
    (bench cfg_small env_small catalog_single_source World.empty).2.per_query =
      [(1, 2), (1, 2)] ∧
    ∃ l1 l2,
      (bench cfg_small env_small catalog_single_source World.empty).2.all_txt =
        (if env_small.results_opens then l1 else World.empty.all_txt) ∧
      (bench cfg_small env_small catalog_single_source World.empty).2.per_query =
        World.empty.per_query ++ l2 ∧
      (∀ e ∈ l1, ∃ q, catalog_single_source e.1 = some q ∧ q.kind ≠ query_kind.ALL_PATHS) ∧
      (∀ e ∈ l2, ∃ q, catalog_single_source e.1 = some q ∧ q.kind ≠ query_kind.ALL_PATHS) :=
  ⟨rfl, rfl, bench_output_reported cfg_small env_small catalog_single_source World.empty⟩

/-! ## C2: the number of lines per query -/

/-- C2 (evaluation at the failing inputs). Two trials, heat-up enabled, result
files that open, a solver that answers every call. For the single-source
query of the description `2 0 1 1 1 1 0`, which requires no label, `bench`
exits in the first trial and leaves no line for the query in `Results/all.txt`
or in `Results/1.txt`, where three and two are due; the same happens with the
heat-up disabled. For a single-source query with `label_count = 1` whose only
label 1 is in the dataset, `bench` exits as well with no line written. -/
theorem bench_run_count_no_lines :
    Option.map query.kind (loaded meta_no_labels) = some query_kind.SINGLE_SOURCE ∧
    Option.map query.label_count (loaded meta_no_labels) = some 0 ∧
    cfg_small.runs = 2 ∧ cfg_small.heatup = true ∧
    env_small.results_opens = true ∧
    (∀ run i, env_small.per_query_opens run i = true) ∧
    (∀ c, (env_small.solver c).isSome = true) ∧
    (bench cfg_small env_small (catalog (loaded meta_no_labels)) World.empty).1 = .exit ∧
    lines_of 1 (bench cfg_small env_small (catalog (loaded meta_no_labels))
      World.empty).2.all_txt = 0 ∧
    lines_of 1 (bench cfg_small env_small (catalog (loaded meta_no_labels))
      World.empty).2.per_query = 0 ∧
    (bench { cfg_small with heatup := false } env_small (catalog (loaded meta_no_labels))
      World.empty).1 = .exit ∧
    lines_of 1 (bench { cfg_small with heatup := false } env_small
      (catalog (loaded meta_no_labels)) World.empty).2.all_txt = 0 ∧
    q_one_label.kind = query_kind.SINGLE_SOURCE ∧ q_one_label.label_count = 1 ∧
    env_small.dataset (q_one_label.labels 0).natAbs = .matrix [(0, 1), (1, 2)] ∧
    (bench cfg_seven env_small (catalog (some q_one_label)) World.empty).1 = .exit ∧
    lines_of 1 (bench cfg_seven env_small (catalog (some q_one_label))
      World.empty).2.all_txt = 0 ∧
    lines_of 1 (bench cfg_seven env_small (catalog (some q_one_label))
      World.empty).2.per_query = 0 :=
  ⟨rfl, rfl, rfl, rfl, rfl, fun _ _ => rfl, fun _ => rfl, rfl, rfl, rfl, rfl, rfl,
    rfl, rfl, rfl, rfl, rfl, rfl⟩

/-! ## C3: a query with both endpoints fixed -/

/-- C3 (evaluation at the failing input). The description `1 2 1 1 1 1 1 1` is
classified `FIXED_SOURCE_DESTINATION`. With two trials and the heat-up, `bench`
never calls the solver for it, yet it writes the line `1,<t>,0` to
`Results/all.txt` in each of the three trials and appends a line to
`Results/1.txt` in the two trials after the heat-up. -/
theorem bench_fixed_source_destination_recorded :
    Option.map query.kind (loaded meta_fixed) = some query_kind.FIXED_SOURCE_DESTINATION ∧
    (bench cfg_small env_small (catalog (loaded meta_fixed)) World.empty).1 = .ret () ∧
    (bench cfg_small env_small (catalog (loaded meta_fixed)) World.empty).2.calls.length = 0 ∧
    (bench cfg_small env_small (catalog (loaded meta_fixed)) World.empty).2.all_txt =
      [(1, 0), (1, 0), (1, 0)] ∧
    (bench cfg_small env_small (catalog (loaded meta_fixed)) World.empty).2.per_query =
      [(1, 0), (1, 0)] :=
  ⟨rfl, rfl, rfl, rfl, rfl⟩

/-! ## C5: the labels that `bench` resolves -/

/-- C5 (evaluation at the failing inputs). For the single-source query of the
description `2 0 1 1 1 1 0`, which has no transition label, `bench` resolves
the label 0 held by the cell `labels[0]`, does not find it and exits. For a
single-source query with `label_count = 1` and `labels[0] = 1`, whose dataset
file exists, `bench` resolves the labels 1 and `|labels[1]| = 7` and exits
because 7 is not found. No line is written in either run. -/
theorem bench_resolves_one_label_too_many :
    Option.map query.kind (loaded meta_no_labels) = some query_kind.SINGLE_SOURCE ∧
    Option.map query.label_count (loaded meta_no_labels) = some 0 ∧
    (bench cfg_small env_small (catalog (loaded meta_no_labels)) World.empty).1 = .exit ∧
    (bench cfg_small env_small (catalog (loaded meta_no_labels)) World.empty).2.resolved = [0] ∧
    (bench cfg_small env_small (catalog (loaded meta_no_labels)) World.empty).2.all_txt = [] ∧
    env_small.dataset (q_one_label.labels 0).natAbs = .matrix [(0, 1), (1, 2)] ∧
    (bench cfg_seven env_small (catalog (some q_one_label)) World.empty).1 = .exit ∧
    (bench cfg_seven env_small (catalog (some q_one_label)) World.empty).2.resolved = [1, 7] ∧
    (bench cfg_seven env_small (catalog (some q_one_label)) World.empty).2.all_txt = [] ∧
    (bench cfg_seven env_small (catalog (some q_one_label)) World.empty).2.per_query = [] :=
  ⟨rfl, rfl, rfl, rfl, rfl, rfl, rfl, rfl, rfl, rfl⟩

/-! ## C10: a query with no endpoint fixed -/

/-- C10 (evaluation at the failing inputs). The description `0 0 1 1 1 1 1 5`
is classified `ALL_PATHS`; the label 5 has no dataset file. With a catalog
holding only this query, `bench` calls `load_adjacency_matrix` for the label 5
and exits in the first trial, and so it does for an `ALL_PATHS` query with
`label_count = 1` and `labels[0] = 5`. With an `ALL_PATHS` query whose label
is 1, `bench` returns but has filled the slot `GS[1]`. -/
theorem bench_all_paths_resolves_labels :
    (bench cfg_seven env_small (catalog (some q_all_paths)) World.empty).1 = .exit ∧
    (bench cfg_seven env_small (catalog (some q_all_paths)) World.empty).2.resolved = [5] ∧
    Option.map query.kind (loaded meta_all_paths) = some query_kind.ALL_PATHS ∧
    (bench cfg_seven env_small (catalog (loaded meta_all_paths)) World.empty).1 = .exit ∧
    (bench cfg_seven env_small (catalog (loaded meta_all_paths)) World.empty).2.resolved
      = [5] ∧
    (bench cfg_seven env_small (catalog (some q_all_paths_found)) World.empty).1 = .ret () ∧
    World.empty.GS 1 = none ∧
    (bench cfg_seven env_small (catalog (some q_all_paths_found)) World.empty).2.GS 1 =
      some g_small :=
  ⟨rfl, rfl, rfl, rfl, rfl, rfl, rfl, rfl⟩

end RPQBench
